import Mathlib

/-!
Verification of the depth-motion-capture retargeting core.

The repository's solver functions (`calculateArmRotations`,
`calculateLegRotations`, `calculateBodyRotations`, `calculateFingerRotations`,
`calculateBlink`, `calculateMouthShape`, `calculateFaceExpressions`,
`applyTemporalSmoothing`) are shallowly embedded below.  JavaScript numbers
are modelled as real numbers; `Math.sqrt`, `Math.atan2`, `Math.asin` and
`Math.acos` are modelled by `Real.sqrt`, a piecewise `atan2` with JavaScript's
conventions, `Real.arcsin` and `Real.arccos`.  A nullable JavaScript value is
an `Option`; a JavaScript array is either a map from indices to nullable
entries (pose landmarks, which the source null-checks entry by entry) or a
length plus a total index map (face and hand landmark arrays, which the
source guards by length before indexing).  A thrown `TypeError` (reading a
property of `undefined`) is modelled by `Except.error`.
-/

noncomputable section

namespace DepthMocap

/-- A detected 3D landmark `{x, y, z}` (the `visibility` field is unused by
the solvers modelled here). -/
structure Landmark where
  x : ℝ
  y : ℝ
  z : ℝ

/-- An Euler rotation triple `{x, y, z}` in radians. -/
structure Rot where
  x : ℝ
  y : ℝ
  z : ℝ

/-- The zero rotation `{x: 0, y: 0, z: 0}`. -/
def Rot.zero : Rot := ⟨0, 0, 0⟩

/-- Pose landmark array: indexing yields a nullable landmark (out-of-range
indexing of a JavaScript array yields `undefined`, and entries themselves may
be absent; the pose solvers truthiness-check every entry they use). -/
def PoseLms : Type := Nat → Option Landmark

/-- A hole-free JavaScript array of landmarks: a length together with the
entries at indices below the length (face and hand landmark arrays). -/
structure LmArr where
  size : Nat
  elt : Nat → Landmark

/-- JavaScript indexing into a hole-free array: `undefined` past the end. -/
def LmArr.at (a : LmArr) (i : Nat) : Option Landmark :=
  if i < a.size then some (a.elt i) else none

/-- JS `Math.sqrt` of the sum of squares of three components (vector length). -/
def vlen3 (x y z : ℝ) : ℝ := Real.sqrt (x ^ 2 + y ^ 2 + z ^ 2)

/-- JS `Math.min(1, Math.max(-1, t))`: the clamp applied before `acos`/`asin`. -/
def clamp1 (t : ℝ) : ℝ := max (-1) (min 1 t)

/-- JS `Math.min(1, Math.max(0, t))`: the clamp into `[0, 1]`. -/
def clamp01 (t : ℝ) : ℝ := min 1 (max 0 t)

/-- JS `Math.atan2(y, x)` with JavaScript's conventions (range `(-π, π]`,
`atan2 0 0 = 0`). -/
def atan2 (y x : ℝ) : ℝ :=
  if 0 < x then Real.arctan (y / x)
  else if x < 0 then
    (if 0 ≤ y then Real.arctan (y / x) + Real.pi
     else Real.arctan (y / x) - Real.pi)
  else
    (if 0 < y then Real.pi / 2
     else if y < 0 then -(Real.pi / 2)
     else 0)

/-! ### Face expression solver (`src/src/utils/faceCalculations.js`) -/

/-- JS `distance(point1, point2)`: Euclidean distance between two landmarks
(`faceCalculations.js` lines 15–20; `z` components always present in this
model, so `point.z || 0` is `point.z`). -/
def jsDistance (p q : Landmark) : ℝ :=
  Real.sqrt ((p.x - q.x) ^ 2 + (p.y - q.y) ^ 2 + (p.z - q.z) ^ 2)

/-- Result of `calculateBlink`. -/
structure Blink where
  leftBlink : ℝ
  rightBlink : ℝ

/-- Result of `calculateMouthShape`. -/
structure Mouth where
  a : ℝ
  i : ℝ
  u : ℝ
  e : ℝ
  o : ℝ

/-- Left eye aspect ratio computed by `calculateBlink` (landmark indices from
`FACE_LANDMARKS`: upper 159, lower 145, inner 133, outer 33). -/
def leftEAR (fl : LmArr) : ℝ :=
  jsDistance (fl.elt 159) (fl.elt 145) / (jsDistance (fl.elt 133) (fl.elt 33) + 0.001)

/-- Right eye aspect ratio computed by `calculateBlink` (upper 386, lower 374,
inner 362, outer 263). -/
def rightEAR (fl : LmArr) : ℝ :=
  jsDistance (fl.elt 386) (fl.elt 374) / (jsDistance (fl.elt 362) (fl.elt 263) + 0.001)

/-- JS `leftBlinkRaw` of `calculateBlink` (line 60). -/
def leftBlinkRaw (fl : LmArr) : ℝ :=
  1 - clamp01 ((leftEAR fl - 0.05) / 0.15)

/-- JS `rightBlinkRaw` of `calculateBlink` (line 61). -/
def rightBlinkRaw (fl : LmArr) : ℝ :=
  1 - clamp01 ((rightEAR fl - 0.05) / 0.15)

/-- JS `calculateBlink(faceLandmarks)` (`faceCalculations.js` lines 29–71). -/
def calculateBlink (fl : Option LmArr) : Blink :=
  match fl with
  | none => ⟨0, 0⟩
  | some f =>
    if f.size < 478 then ⟨0, 0⟩
    else
      let leftB := if leftBlinkRaw f > 0.65 then 1 else leftBlinkRaw f
      let rightB := if rightBlinkRaw f > 0.65 then 1 else rightBlinkRaw f
      ⟨clamp01 leftB, clamp01 rightB⟩

/-- JS `mouthHeight` of `calculateMouthShape` (MOUTH_TOP 13, MOUTH_BOTTOM 14). -/
def mouthHeight (fl : LmArr) : ℝ := jsDistance (fl.elt 13) (fl.elt 14)

/-- JS `mouthWidth` of `calculateMouthShape` (MOUTH_LEFT 61, MOUTH_RIGHT 291). -/
def mouthWidth (fl : LmArr) : ℝ := jsDistance (fl.elt 61) (fl.elt 291)

/-- JS `aspectRatio` of `calculateMouthShape` (line 94). -/
def mouthAspect (fl : LmArr) : ℝ := mouthWidth fl / (mouthHeight fl + 0.001)

/-- JS `openness` of `calculateMouthShape` (line 97). -/
def mouthOpenness (fl : LmArr) : ℝ := clamp01 (mouthHeight fl / 0.1)

/-- JS `wideness` of `calculateMouthShape` (line 98). -/
def mouthWideness (fl : LmArr) : ℝ := clamp01 ((mouthWidth fl - 0.05) / 0.05)

/-- Raw vowel score `a` (line 102). -/
def rawA (fl : LmArr) : ℝ :=
  if mouthOpenness fl > 0.3 ∧ mouthAspect fl < 3.0 then mouthOpenness fl * 0.8 else 0

/-- Raw vowel score `i` (line 105). -/
def rawI (fl : LmArr) : ℝ :=
  if mouthWideness fl > 0.4 ∧ mouthOpenness fl < 0.3 then mouthWideness fl * 0.7 else 0

/-- Raw vowel score `u` (line 108). -/
def rawU (fl : LmArr) : ℝ :=
  if mouthAspect fl < 1.5 ∧ mouthOpenness fl > 0.15 ∧ mouthOpenness fl < 0.4 then 0.6 else 0

/-- Raw vowel score `e` (line 111). -/
def rawE (fl : LmArr) : ℝ :=
  if mouthWideness fl > 0.3 ∧ mouthOpenness fl > 0.15 ∧ mouthOpenness fl < 0.5 ∧
      mouthAspect fl > 2.0 then 0.5 else 0

/-- Raw vowel score `o` (line 114). -/
def rawO (fl : LmArr) : ℝ :=
  if mouthOpenness fl > 0.3 ∧ mouthAspect fl > 1.5 ∧ mouthAspect fl < 2.5 then
    mouthOpenness fl * 0.7 else 0

/-- JS `total` of `calculateMouthShape` (line 117). -/
def rawTotal (fl : LmArr) : ℝ := rawA fl + rawI fl + rawU fl + rawE fl + rawO fl

/-- JS `calculateMouthShape(faceLandmarks)` (`faceCalculations.js` lines 79–127). -/
def calculateMouthShape (fl : Option LmArr) : Mouth :=
  match fl with
  | none => ⟨0, 0, 0, 0, 0⟩
  | some f =>
    if f.size < 478 then ⟨0, 0, 0, 0, 0⟩
    else
      let scale := if rawTotal f > 1 then 1 / rawTotal f else 1
      ⟨rawA f * scale, rawI f * scale, rawU f * scale, rawE f * scale, rawO f * scale⟩

/-- Result of `calculateFaceExpressions`. -/
structure FaceExpr where
  blinkLeft : ℝ
  blinkRight : ℝ
  mouthA : ℝ
  mouthI : ℝ
  mouthU : ℝ
  mouthE : ℝ
  mouthO : ℝ

/-- JS `calculateFaceExpressions(faceLandmarks)` (`faceCalculations.js`
lines 182–208): null input yields null, otherwise blink and mouth results are
combined. -/
def calculateFaceExpressions (fl : Option LmArr) : Option FaceExpr :=
  match fl with
  | none => none
  | some f =>
    let blink := calculateBlink (some f)
    let mouth := calculateMouthShape (some f)
    some ⟨blink.leftBlink, blink.rightBlink, mouth.a, mouth.i, mouth.u, mouth.e, mouth.o⟩

/-! ### Leg solver (`src/unnamed/part_003`, `calculateLegRotations`, lines 356–487) -/

/-- Result of `calculateLegRotations`. -/
structure LegPose where
  RightUpperLeg : Rot
  LeftUpperLeg : Rot
  RightLowerLeg : Rot
  LeftLowerLeg : Rot

/-- The sagittal (Z) upper-leg rotation before the dead zone:
`atan2(-nz, ny)` over the normalized hip→knee vector (lines 390–399). -/
def legRotZraw (hip knee : Landmark) : ℝ :=
  let len := vlen3 (knee.x - hip.x) (knee.y - hip.y) (knee.z - hip.z)
  atan2 (-((knee.z - hip.z) / len)) ((knee.y - hip.y) / len)

/-- The dot product of the normalized `p→q` and `q→r` segment vectors
(elbow bend, lines 190–201; knee bend, lines 414–424). -/
def segDot (p q r : Landmark) : ℝ :=
  let uLen := vlen3 (q.x - p.x) (q.y - p.y) (q.z - p.z)
  let lLen := vlen3 (r.x - q.x) (r.y - q.y) (r.z - q.z)
  ((q.x - p.x) / uLen) * ((r.x - q.x) / lLen) +
    ((q.y - p.y) / uLen) * ((r.y - q.y) / lLen) +
    ((q.z - p.z) / uLen) * ((r.z - q.z) / lLen)

/-- The bend angle between the normalized `p→q` and `q→r` segment vectors:
`acos` of the dot product clamped to `[-1, 1]` (elbow bend, lines 190–202;
knee bend, lines 414–425). -/
def bendAngle (p q r : Landmark) : ℝ :=
  Real.arccos (clamp1 (segDot p q r))

/-- One side of `calculateLegRotations`: upper-leg rotation (Z dead zone 0.15,
X fixed at 0) and knee bend (dead zone 0.6); `sideSign` is `-1` for the right
leg and `1` for the left leg. -/
def legSide (hip knee ankle : Landmark) (sideSign : ℝ) : Rot × Rot :=
  let upperLen := vlen3 (knee.x - hip.x) (knee.y - hip.y) (knee.z - hip.z)
  let upperZ :=
    if upperLen > 0.01 then
      let rotZ := legRotZraw hip knee
      if |rotZ| < 0.15 then 0 else rotZ
    else 0
  let lowerLen := vlen3 (ankle.x - knee.x) (ankle.y - knee.y) (ankle.z - knee.z)
  let lowerZ :=
    if upperLen > 0.01 ∧ lowerLen > 0.01 then
      let kneeAngle := bendAngle hip knee ankle
      if kneeAngle < 0.6 then 0 else sideSign * kneeAngle
    else 0
  (⟨0, 0, upperZ⟩, ⟨0, 0, lowerZ⟩)

/-- JS `calculateLegRotations(worldLandmarks)` (lines 356–487).  Landmark
indices: RIGHT_HIP 24, RIGHT_KNEE 26, RIGHT_ANKLE 28, LEFT_HIP 23,
LEFT_KNEE 25, LEFT_ANKLE 27. -/
def calculateLegRotations (lm : PoseLms) : LegPose :=
  let right : Rot × Rot :=
    match lm 24, lm 26, lm 28 with
    | some hip, some knee, some ankle => legSide hip knee ankle (-1)
    | _, _, _ => (Rot.zero, Rot.zero)
  let left : Rot × Rot :=
    match lm 23, lm 25, lm 27 with
    | some hip, some knee, some ankle => legSide hip knee ankle 1
    | _, _, _ => (Rot.zero, Rot.zero)
  ⟨right.1, left.1, right.2, left.2⟩

/-! ### Arm solver (`src/unnamed/part_003`, `calculateArmRotations`,
lines 10–349) -/

/-- Result of `calculateArmRotations`. -/
structure ArmPose where
  RightUpperArm : Rot
  LeftUpperArm : Rot
  RightLowerArm : Rot
  LeftLowerArm : Rot

/-- The two nullable per-hand landmark arrays handed to the arm solver. -/
structure HandsInput where
  leftHandLandmarks : Option LmArr
  rightHandLandmarks : Option LmArr

/-- JS `versionStr.startsWith('0')` (lines 84–85): the legacy VRM0.x rig —
true exactly when the version string's first character is '0'. -/
def isVrm0 (v : String) : Bool := v.data.head? == some '0'

/-- JS `angleZ` of the arm solver: `atan2(sqrt(nx² + nz²), -ny)` over the
normalized shoulder→elbow vector (lines 80–81). -/
def armAngleZ (sh el : Landmark) : ℝ :=
  let len := vlen3 (el.x - sh.x) (el.y - sh.y) (el.z - sh.z)
  atan2 (Real.sqrt (((el.x - sh.x) / len) ^ 2 + ((el.z - sh.z) / len) ^ 2))
    (-((el.y - sh.y) / len))

/-- JS `angleX` of the arm solver: `asin(clamp(nz)) * ANGLES.ARM_X_SCALE`
with `ARM_X_SCALE = 1.2` (line 116 and `landmarks.js` line 339). -/
def armAngleX (sh el : Landmark) : ℝ :=
  let len := vlen3 (el.x - sh.x) (el.y - sh.y) (el.z - sh.z)
  Real.arcsin (clamp1 ((el.z - sh.z) / len)) * 1.2

/-- JS `shoulderHeightDiff` (lines 30–51): the raw left-minus-right shoulder
height difference, converted to a tilt angle when the shoulder distance
exceeds 0.01, and 0 when either shoulder is absent. -/
def shoulderTiltOf (rsO lsO : Option Landmark) : ℝ :=
  match rsO, lsO with
  | some rS, some lS =>
    let diff := lS.y - rS.y
    let dist := vlen3 (lS.x - rS.x) (lS.y - rS.y) (lS.z - rS.z)
    if dist > 0.01 then atan2 diff dist else diff
  | _, _ => 0

/-- The palm-projection twist angle (lines 136–166): palm vector from pinky
knuckle to index knuckle, projected onto the plane perpendicular to the
elbow→wrist forearm vector, renormalized; `asin` of its vertical component.
Each failed epsilon guard yields the explicit 0 the source assigns. -/
def palmTwistAngle (ik pk el wr : Landmark) : ℝ :=
  let pvx := ik.x - pk.x
  let pvy := ik.y - pk.y
  let pvz := ik.z - pk.z
  let palmLen := vlen3 pvx pvy pvz
  if palmLen > 0.01 then
    let ldx := wr.x - el.x
    let ldy := wr.y - el.y
    let ldz := wr.z - el.z
    let lowerLen := vlen3 ldx ldy ldz
    if lowerLen > 0.01 then
      let dot := (pvx / palmLen) * (ldx / lowerLen) + (pvy / palmLen) * (ldy / lowerLen) +
        (pvz / palmLen) * (ldz / lowerLen)
      let qx := pvx / palmLen - dot * (ldx / lowerLen)
      let qy := pvy / palmLen - dot * (ldy / lowerLen)
      let qz := pvz / palmLen - dot * (ldz / lowerLen)
      let perpLen := vlen3 qx qy qz
      if perpLen > 0.01 then Real.arcsin (clamp1 (qy / perpLen)) else 0
    else 0
  else 0

/-- The fallback twist (lines 181–187): difference of forearm and upper-arm
azimuths in the XZ plane, wrapped into `(-π, π]`. -/
def fallbackTwist (sh el wr : Landmark) : ℝ :=
  let t := atan2 (wr.x - el.x) (wr.z - el.z) - atan2 (el.x - sh.x) (el.z - sh.z)
  let t1 := if t > Real.pi then t - 2 * Real.pi else t
  if t1 < -Real.pi then t1 + 2 * Real.pi else t1

/-- The Y-twist of one upper arm (lines 128–188): palm-based when that side's
hand landmark array is present and non-empty (explicit 0 when a knuckle is
missing), azimuth fallback otherwise.  `palmSign` is `-1` for the right arm
and `1` for the left; `fbSign` is `1` for the right arm and `-1` for the
left. -/
def armTwistY (handArr : Option LmArr) (sh el wr : Landmark) (palmSign fbSign : ℝ) : ℝ :=
  match handArr with
  | some arr =>
    if arr.size > 0 then
      match arr.at 5, arr.at 17 with
      | some ik, some pk => palmSign * palmTwistAngle ik pk el wr * 1.2
      | _, _ => 0
    else fbSign * fallbackTwist sh el wr * 0.5
  | none => fbSign * fallbackTwist sh el wr * 0.5

/-- JS `calculateArmRotations(worldLandmarks, handLandmarks, vrmVersion)`
(lines 10–349), with the sampling-based debug logging made explicit:
`rand` supplies the outcomes of the four `Math.random()` calls (sites 0 and 1
gate the right arm's two logs, 2 and 3 the left arm's) and `versionLogged`
is the `_versionLogged` one-time flag.  The result carries the rigged pose,
the list of log-site identifiers actually emitted (0 = version log,
1/2 = right arm before/after compensation, 3/4 = left arm), and the updated
`_versionLogged` flag.  Landmark indices: RIGHT_SHOULDER 12, RIGHT_ELBOW 14,
RIGHT_WRIST 16, LEFT_SHOULDER 11, LEFT_ELBOW 13, LEFT_WRIST 15. -/
def calculateArmRotationsAux (rand : Nat → ℝ) (versionLogged : Bool) (lm : PoseLms)
    (hand : Option HandsInput) (v : String) : ArmPose × List Nat × Bool :=
  let versionLogs : List Nat := if versionLogged then [] else [0]
  let tilt := shoulderTiltOf (lm 12) (lm 11)
  let right : Rot × Rot × List Nat :=
    match lm 12, lm 14, lm 16 with
    | some rs, some re, some rw =>
      let upperArmLen := vlen3 (re.x - rs.x) (re.y - rs.y) (re.z - rs.z)
      let armRotation := Real.pi / 2 - armAngleZ rs re + tilt * 1.0
      let z := if upperArmLen > 0.01 then
          (if isVrm0 v then armRotation else -armRotation) else 0
      let x := if upperArmLen > 0.01 then
          (if isVrm0 v then armAngleX rs re else -armAngleX rs re) else 0
      let zxLogs : List Nat := if upperArmLen > 0.01 then
          (if rand 0 < 0.2 then [1] else []) ++ (if rand 1 < 0.2 then [2] else []) else []
      let lowerLen := vlen3 (rw.x - re.x) (rw.y - re.y) (rw.z - re.z)
      let ry := armTwistY ((hand.map HandsInput.rightHandLandmarks).join) rs re rw (-1) 1
      let lowz := if upperArmLen > 0.01 ∧ lowerLen > 0.01 then -bendAngle rs re rw else 0
      (⟨x, ry, z⟩, ⟨0, 0, lowz⟩, zxLogs)
    | _, _, _ => (Rot.zero, Rot.zero, [])
  let left : Rot × Rot × List Nat :=
    match lm 11, lm 13, lm 15 with
    | some ls, some le, some lw =>
      let upperArmLen := vlen3 (le.x - ls.x) (le.y - ls.y) (le.z - ls.z)
      let armRotation := Real.pi / 2 - armAngleZ ls le - tilt * 1.0
      let z := if upperArmLen > 0.01 then
          (if isVrm0 v then -armRotation else armRotation) else 0
      let x := if upperArmLen > 0.01 then
          (if isVrm0 v then -armAngleX ls le else armAngleX ls le) else 0
      let zxLogs : List Nat := if upperArmLen > 0.01 then
          (if rand 2 < 0.2 then [3] else []) ++ (if rand 3 < 0.2 then [4] else []) else []
      let lowerLen := vlen3 (lw.x - le.x) (lw.y - le.y) (lw.z - le.z)
      let ly := armTwistY ((hand.map HandsInput.leftHandLandmarks).join) ls le lw 1 (-1)
      let lowz := if upperArmLen > 0.01 ∧ lowerLen > 0.01 then bendAngle ls le lw else 0
      (⟨x, ly, z⟩, ⟨0, 0, lowz⟩, zxLogs)
    | _, _, _ => (Rot.zero, Rot.zero, [])
  (⟨right.1, left.1, right.2.1, left.2.1⟩,
   versionLogs ++ right.2.2 ++ left.2.2, true)

/-- The rigged pose returned by `calculateArmRotations` (the value the caller
receives; the `Math.random()` outcomes and the `_versionLogged` flag only
drive logging). -/
def calculateArmRotations (lm : PoseLms) (hand : Option HandsInput) (v : String) : ArmPose :=
  (calculateArmRotationsAux (fun _ => 1) true lm hand v).1

/-! ### Body solver (`src/unnamed/part_003`, `calculateBodyRotations`,
lines 494–632) -/

/-- Result of `calculateBodyRotations`.  The `Hips` entry's top-level numbers
and nested `rotation` are both the zero triple; `worldPosition` carries the
hip center. -/
structure BodyPose where
  Hips : Rot
  HipsRotation : Rot
  HipsWorldPosition : Landmark
  Spine : Rot
  Chest : Rot
  UpperChest : Rot
  Neck : Option Rot
  Head : Option Rot
  RightShoulder : Rot
  LeftShoulder : Rot
  RightHand : Rot
  LeftHand : Rot

/-- JS `calculateBodyRotations(worldLandmarks)` (lines 494–632).  The function
dereferences both shoulders (11, 12) and both hips (23, 24) without a null
check when computing `torsoCenter`/`hipCenter` (lines 503–513), so a missing
entry among those four is a thrown `TypeError`, modelled as `Except.error`.
The nose (0) and ears (7, 8) are null-checked (line 559); when absent, `Neck`
and `Head` are `null`. -/
def calculateBodyRotations (lm : PoseLms) : Except String BodyPose :=
  match lm 12, lm 11, lm 24, lm 23 with
  | some rSh, some lSh, some rHip, some lHip =>
    let torso : Landmark := ⟨(rSh.x + lSh.x) / 2, (rSh.y + lSh.y) / 2, (rSh.z + lSh.z) / 2⟩
    let hip : Landmark := ⟨(rHip.x + lHip.x) / 2, (rHip.y + lHip.y) / 2, (rHip.z + lHip.z) / 2⟩
    let spineLen := vlen3 (torso.x - hip.x) (torso.y - hip.y) (torso.z - hip.z)
    let spineRot : Rot :=
      if spineLen > 0.01 then
        ⟨atan2 ((torso.x - hip.x) / spineLen) (-((torso.y - hip.y) / spineLen)),
         atan2 (rSh.z - lSh.z) (rSh.x - lSh.x),
         atan2 ((torso.z - hip.z) / spineLen) (-((torso.y - hip.y) / spineLen))⟩
      else ⟨0, 0, 0⟩
    let neckHead : Option (Rot × Rot) :=
      match lm 0, lm 7, lm 8 with
      | some nose, some lEar, some rEar =>
        let dx := nose.x - (lEar.x + rEar.x) / 2
        let dy := nose.y - (lEar.y + rEar.y) / 2
        let dz := nose.z - (lEar.z + rEar.z) / 2
        let headYaw := atan2 dx (-dz)
        let headPitch := atan2 dy (Real.sqrt (dx ^ 2 + dz ^ 2))
        let headRoll : ℝ := 0
        some (⟨headPitch * 0.6, headYaw * 0.6, headRoll * 0.6⟩,
              ⟨headPitch * 0.4, headYaw * 0.4, headRoll * 0.4⟩)
      | _, _, _ => none
    .ok
      { Hips := Rot.zero
        HipsRotation := Rot.zero
        HipsWorldPosition := hip
        Spine := ⟨spineRot.x * 0.5, 0, -spineRot.z * 0.5⟩
        Chest := ⟨spineRot.x * 0.3, 0, -spineRot.z * 0.3⟩
        UpperChest := ⟨spineRot.x * 0.2, 0, -spineRot.z * 0.2⟩
        Neck := neckHead.map Prod.fst
        Head := neckHead.map Prod.snd
        RightShoulder := Rot.zero
        LeftShoulder := Rot.zero
        RightHand := Rot.zero
        LeftHand := Rot.zero }
  | _, _, _, _ => .error "TypeError"

/-! ### Finger solver (`src/src/utils/handCalculations.js`,
`calculateFingerRotations`, lines 11–162) -/

/-- Rotations for the fifteen finger bones of one hand (the VRM bone-name
prefix `left`/`right` is determined by the `isLeft` argument). -/
structure FingerRots where
  thumbProximal : Rot
  thumbIntermediate : Rot
  thumbDistal : Rot
  indexProximal : Rot
  indexIntermediate : Rot
  indexDistal : Rot
  middleProximal : Rot
  middleIntermediate : Rot
  middleDistal : Rot
  ringProximal : Rot
  ringIntermediate : Rot
  ringDistal : Rot
  littleProximal : Rot
  littleIntermediate : Rot
  littleDistal : Rot

/-- JS `calculateRotation(from, to)` (lines 19–43): non-thumb finger segment. -/
def fingerSegRot (isLeft : Bool) (p q : Landmark) : Rot :=
  let dx := q.x - p.x
  let dy := q.y - p.y
  let dz := q.z - p.z
  let horizontalDist := Real.sqrt (dx ^ 2 + dz ^ 2)
  let bendAng := -(atan2 (-dy) horizontalDist - Real.pi / 2)
  let spreadAng := atan2 dx |dz| * (if isLeft then 1 else -1)
  ⟨spreadAng * 0.5, 0, bendAng⟩

/-- JS `calculateThumbRotation(from, to)` (lines 46–73): thumb segment. -/
def thumbSegRot (isLeft : Bool) (p q : Landmark) : Rot :=
  let dx := q.x - p.x
  let dy := q.y - p.y
  let dz := q.z - p.z
  let perpDist := Real.sqrt (dy ^ 2 + dz ^ 2)
  let bendAng := atan2 perpDist (if isLeft then dx else -dx) - Real.pi / 2
  let spreadAng := atan2 dy |dz| * (if isLeft then -1 else 1)
  ⟨spreadAng * 0.5, 0, bendAng⟩

/-- JS `calculateFingerRotations(handLandmarks, isLeft)` (lines 11–162):
`null` for a missing hand or an array shorter than 21 points; otherwise the
fifteen per-segment rotations over `HAND_LANDMARKS` indices. -/
def calculateFingerRotations (h : Option LmArr) (isLeft : Bool) : Option FingerRots :=
  match h with
  | none => none
  | some hl =>
    if hl.size < 21 then none
    else
      some
        { thumbProximal := thumbSegRot isLeft (hl.elt 1) (hl.elt 2)
          thumbIntermediate := thumbSegRot isLeft (hl.elt 2) (hl.elt 3)
          thumbDistal := thumbSegRot isLeft (hl.elt 3) (hl.elt 4)
          indexProximal := fingerSegRot isLeft (hl.elt 5) (hl.elt 6)
          indexIntermediate := fingerSegRot isLeft (hl.elt 6) (hl.elt 7)
          indexDistal := fingerSegRot isLeft (hl.elt 7) (hl.elt 8)
          middleProximal := fingerSegRot isLeft (hl.elt 9) (hl.elt 10)
          middleIntermediate := fingerSegRot isLeft (hl.elt 10) (hl.elt 11)
          middleDistal := fingerSegRot isLeft (hl.elt 11) (hl.elt 12)
          ringProximal := fingerSegRot isLeft (hl.elt 13) (hl.elt 14)
          ringIntermediate := fingerSegRot isLeft (hl.elt 14) (hl.elt 15)
          ringDistal := fingerSegRot isLeft (hl.elt 15) (hl.elt 16)
          littleProximal := fingerSegRot isLeft (hl.elt 17) (hl.elt 18)
          littleIntermediate := fingerSegRot isLeft (hl.elt 18) (hl.elt 19)
          littleDistal := fingerSegRot isLeft (hl.elt 19) (hl.elt 20) }

/-! ### Temporal smoothing (`src/unnamed/part_003`, `applyTemporalSmoothing`,
lines 640–708) and the driver's previous-pose slot
(`src/src/components/MotionCapturer.jsx`, lines 640–641) -/

/-- The merged rigged pose as seen by `applyTemporalSmoothing`: the fourteen
body-part entries of its `bodyParts` list, the two spine entries it does not
smooth, and the optional `Face` block. -/
structure SmoothPose where
  RightUpperArm : Option Rot
  RightLowerArm : Option Rot
  LeftUpperArm : Option Rot
  LeftLowerArm : Option Rot
  RightUpperLeg : Option Rot
  RightLowerLeg : Option Rot
  LeftUpperLeg : Option Rot
  LeftLowerLeg : Option Rot
  Hips : Option Rot
  Spine : Option Rot
  RightShoulder : Option Rot
  LeftShoulder : Option Rot
  Neck : Option Rot
  Head : Option Rot
  Chest : Option Rot
  UpperChest : Option Rot
  Face : Option FaceExpr

/-- The exponential blend of lines 668–669:
`previous + (current − previous) × (1 − factor)`. -/
def blend (factor cur prev : ℝ) : ℝ := prev + (cur - prev) * (1 - factor)

/-- JS `smoothRotation` for one bone entry (lines 650–672): blend each axis with
its per-axis factor when the entry is present in both poses, otherwise keep
the deep copy of the current entry. -/
def smoothEntry (fx fy fz : ℝ) (cur prev : Option Rot) : Option Rot :=
  match cur, prev with
  | some c, some p => some ⟨blend fx c.x p.x, blend fy c.y p.y, blend fz c.z p.z⟩
  | _, _ => cur

/-- JS `applyTemporalSmoothing(currentPose, previousPose)` (lines 640–708).
Factors: `SMOOTHING.POSE_TEMPORAL = 0.3` by default, `0.1` for the Y axis of
the upper arms, `0.6` for `Neck`/`Head`, `0.2` for the blink entries and
`0.4` for the mouth entries of the `Face` block; `Chest`/`UpperChest` are not
in the `bodyParts` list and pass through unsmoothed. -/
def applyTemporalSmoothing (cur : SmoothPose) (prev : Option SmoothPose) : SmoothPose :=
  match prev with
  | none => cur
  | some p =>
    { RightUpperArm := smoothEntry 0.3 0.1 0.3 cur.RightUpperArm p.RightUpperArm
      RightLowerArm := smoothEntry 0.3 0.3 0.3 cur.RightLowerArm p.RightLowerArm
      LeftUpperArm := smoothEntry 0.3 0.1 0.3 cur.LeftUpperArm p.LeftUpperArm
      LeftLowerArm := smoothEntry 0.3 0.3 0.3 cur.LeftLowerArm p.LeftLowerArm
      RightUpperLeg := smoothEntry 0.3 0.3 0.3 cur.RightUpperLeg p.RightUpperLeg
      RightLowerLeg := smoothEntry 0.3 0.3 0.3 cur.RightLowerLeg p.RightLowerLeg
      LeftUpperLeg := smoothEntry 0.3 0.3 0.3 cur.LeftUpperLeg p.LeftUpperLeg
      LeftLowerLeg := smoothEntry 0.3 0.3 0.3 cur.LeftLowerLeg p.LeftLowerLeg
      Hips := smoothEntry 0.3 0.3 0.3 cur.Hips p.Hips
      Spine := smoothEntry 0.3 0.3 0.3 cur.Spine p.Spine
      RightShoulder := smoothEntry 0.3 0.3 0.3 cur.RightShoulder p.RightShoulder
      LeftShoulder := smoothEntry 0.3 0.3 0.3 cur.LeftShoulder p.LeftShoulder
      Neck := smoothEntry 0.6 0.6 0.6 cur.Neck p.Neck
      Head := smoothEntry 0.6 0.6 0.6 cur.Head p.Head
      Chest := cur.Chest
      UpperChest := cur.UpperChest
      Face :=
        match cur.Face, p.Face with
        | some cf, some pf =>
          some
            { blinkLeft := blend 0.2 cf.blinkLeft pf.blinkLeft
              blinkRight := blend 0.2 cf.blinkRight pf.blinkRight
              mouthA := blend 0.4 cf.mouthA pf.mouthA
              mouthI := blend 0.4 cf.mouthI pf.mouthI
              mouthU := blend 0.4 cf.mouthU pf.mouthU
              mouthE := blend 0.4 cf.mouthE pf.mouthE
              mouthO := blend 0.4 cf.mouthO pf.mouthO }
        | _, _ => cur.Face }

/-- One frame of the driver loop around the smoother
(`MotionCapturer.jsx` lines 640–641): smooth the freshly merged pose against
the retained previous pose, then retain a deep copy of the smoothed result as
the next frame's previous pose. -/
def driverStep (prevRef : Option SmoothPose) (raw : SmoothPose) : SmoothPose × Option SmoothPose :=
  let s := applyTemporalSmoothing raw prevRef
  (s, some s)

/-! ### Shared lemmas and concrete inputs -/

lemma clamp01_nonneg (t : ℝ) : 0 ≤ clamp01 t :=
  le_min zero_le_one (le_max_left 0 t)

lemma clamp01_le_one (t : ℝ) : clamp01 t ≤ 1 :=
  min_le_left 1 _

lemma clamp01_of_nonpos {t : ℝ} (h : t ≤ 0) : clamp01 t = 0 := by
  unfold clamp01
  rw [max_eq_left h, min_eq_right zero_le_one]

lemma clamp01_one : clamp01 1 = 1 := by
  unfold clamp01
  norm_num

lemma clamp1_lb (t : ℝ) : -1 ≤ clamp1 t :=
  le_max_left _ _

lemma clamp1_ub (t : ℝ) : clamp1 t ≤ 1 :=
  max_le (by norm_num) (min_le_left _ _)

lemma sqrt_val {a b : ℝ} (hb : 0 ≤ b) (h : b ^ 2 = a) : Real.sqrt a = b := by
  rw [← h, Real.sqrt_sq hb]

lemma mouthOpenness_nonneg (fl : LmArr) : 0 ≤ mouthOpenness fl :=
  clamp01_nonneg _

lemma mouthOpenness_le_one (fl : LmArr) : mouthOpenness fl ≤ 1 :=
  clamp01_le_one _

lemma mouthWideness_nonneg (fl : LmArr) : 0 ≤ mouthWideness fl :=
  clamp01_nonneg _

lemma mouthWideness_le_one (fl : LmArr) : mouthWideness fl ≤ 1 :=
  clamp01_le_one _

lemma rawA_nonneg (fl : LmArr) : 0 ≤ rawA fl := by
  unfold rawA
  split
  · exact mul_nonneg (mouthOpenness_nonneg fl) (by norm_num)
  · exact le_refl 0

lemma rawA_le_one (fl : LmArr) : rawA fl ≤ 1 := by
  unfold rawA
  split
  · nlinarith [mouthOpenness_le_one fl, mouthOpenness_nonneg fl]
  · norm_num

lemma rawI_nonneg (fl : LmArr) : 0 ≤ rawI fl := by
  unfold rawI
  split
  · exact mul_nonneg (mouthWideness_nonneg fl) (by norm_num)
  · exact le_refl 0

lemma rawI_le_one (fl : LmArr) : rawI fl ≤ 1 := by
  unfold rawI
  split
  · nlinarith [mouthWideness_le_one fl, mouthWideness_nonneg fl]
  · norm_num

lemma rawU_nonneg (fl : LmArr) : 0 ≤ rawU fl := by
  unfold rawU
  split <;> norm_num

lemma rawU_le_one (fl : LmArr) : rawU fl ≤ 1 := by
  unfold rawU
  split <;> norm_num

lemma rawE_nonneg (fl : LmArr) : 0 ≤ rawE fl := by
  unfold rawE
  split <;> norm_num

lemma rawE_le_one (fl : LmArr) : rawE fl ≤ 1 := by
  unfold rawE
  split <;> norm_num

lemma rawO_nonneg (fl : LmArr) : 0 ≤ rawO fl := by
  unfold rawO
  split
  · exact mul_nonneg (mouthOpenness_nonneg fl) (by norm_num)
  · exact le_refl 0

lemma rawO_le_one (fl : LmArr) : rawO fl ≤ 1 := by
  unfold rawO
  split
  · nlinarith [mouthOpenness_le_one fl, mouthOpenness_nonneg fl]
  · norm_num

/-- The all-zero landmark. -/
def zeroLm : Landmark := ⟨0, 0, 0⟩

/-- A 478-point face landmark array with every point at the origin. -/
def face478 : LmArr := ⟨478, fun _ => zeroLm⟩

/-- A 468-point face landmark array with every point at the origin. -/
def face468 : LmArr := ⟨468, fun _ => zeroLm⟩

/-! ### Claim C10 -/

/-- C10: for a face landmark array whose length is at least 468 but below
478, both `calculateBlink` and `calculateMouthShape` hit their short-array
guard — which compares against 478, not 468 — and return zero blink values
and all-zero vowel weights. -/
theorem blink_mouth_guard_rejects_468 (fl : LmArr) (_h468 : 468 ≤ fl.size)
    (h478 : fl.size < 478) :
    calculateBlink (some fl) = ⟨0, 0⟩ ∧
    calculateMouthShape (some fl) = ⟨0, 0, 0, 0, 0⟩ := by
  refine ⟨?_, ?_⟩ <;> simp [calculateBlink, calculateMouthShape, h478]

/-- Witness for C10 at a 468-point all-origin face array. -/
theorem blink_mouth_guard_rejects_468_witness :
    468 ≤ face468.size ∧ face468.size < 478 ∧
    calculateBlink (some face468) = ⟨0, 0⟩ ∧
    calculateMouthShape (some face468) = ⟨0, 0, 0, 0, 0⟩ := by
  refine ⟨by norm_num [face468], by norm_num [face468], ?_, ?_⟩
  · exact (blink_mouth_guard_rejects_468 face468 (by norm_num [face468])
      (by norm_num [face468])).1
  · exact (blink_mouth_guard_rejects_468 face468 (by norm_num [face468])
      (by norm_num [face468])).2

/-! ### Claim C6 -/

/-- C6: for a face landmark array passing the length guard, each raw per-eye
blink value is the eye aspect ratio normalized against the 0.05 open-floor
and 0.20 ceiling into `[0, 1]` and inverted; a raw value above 0.65 snaps the
returned blink to exactly 1; an eye aspect ratio below the open-floor yields
exactly 1; and the returned values always lie in `[0, 1]`. -/
theorem blink_ear_normalization (fl : LmArr) (h : 478 ≤ fl.size) :
    leftBlinkRaw fl = 1 - clamp01 ((leftEAR fl - 0.05) / (0.20 - 0.05)) ∧
    rightBlinkRaw fl = 1 - clamp01 ((rightEAR fl - 0.05) / (0.20 - 0.05)) ∧
    (leftBlinkRaw fl > 0.65 → (calculateBlink (some fl)).leftBlink = 1) ∧
    (rightBlinkRaw fl > 0.65 → (calculateBlink (some fl)).rightBlink = 1) ∧
    (leftEAR fl < 0.05 → (calculateBlink (some fl)).leftBlink = 1) ∧
    (rightEAR fl < 0.05 → (calculateBlink (some fl)).rightBlink = 1) ∧
    0 ≤ (calculateBlink (some fl)).leftBlink ∧
    (calculateBlink (some fl)).leftBlink ≤ 1 ∧
    0 ≤ (calculateBlink (some fl)).rightBlink ∧
    (calculateBlink (some fl)).rightBlink ≤ 1 := by
  have hg : ¬ fl.size < 478 := by omega
  have hden : (0.20 : ℝ) - 0.05 = 0.15 := by norm_num
  have hlraw : leftEAR fl < 0.05 → leftBlinkRaw fl = 1 := by
    intro hc
    unfold leftBlinkRaw
    rw [clamp01_of_nonpos (by
      rw [div_nonpos_iff]
      right
      constructor <;> linarith)]
    norm_num
  have hrraw : rightEAR fl < 0.05 → rightBlinkRaw fl = 1 := by
    intro hc
    unfold rightBlinkRaw
    rw [clamp01_of_nonpos (by
      rw [div_nonpos_iff]
      right
      constructor <;> linarith)]
    norm_num
  refine ⟨by unfold leftBlinkRaw; rw [hden], by unfold rightBlinkRaw; rw [hden],
    ?_, ?_, ?_, ?_, ?_, ?_, ?_, ?_⟩
  · intro hb
    simp only [calculateBlink, hg, if_false, if_pos hb]
    norm_num [clamp01]
  · intro hb
    simp only [calculateBlink, hg, if_false, if_pos hb]
    norm_num [clamp01]
  · intro hc
    have h1 := hlraw hc
    simp only [calculateBlink, hg, if_false, h1]
    norm_num [clamp01]
  · intro hc
    have h1 := hrraw hc
    simp only [calculateBlink, hg, if_false, h1]
    norm_num [clamp01]
  · simp only [calculateBlink, hg, if_false]
    exact clamp01_nonneg _
  · simp only [calculateBlink, hg, if_false]
    exact clamp01_le_one _
  · simp only [calculateBlink, hg, if_false]
    exact clamp01_nonneg _
  · simp only [calculateBlink, hg, if_false]
    exact clamp01_le_one _

/-- Witness for C6 at a 478-point all-origin face array: the eye aspect
ratio is 0, below the open-floor, so the returned blink is exactly 1. -/
theorem blink_ear_normalization_witness :
    478 ≤ face478.size ∧ leftEAR face478 < 0.05 ∧
    (calculateBlink (some face478)).leftBlink = 1 := by
  have hear : leftEAR face478 = 0 := by
    unfold leftEAR jsDistance
    simp [face478, zeroLm]
  refine ⟨by norm_num [face478], by rw [hear]; norm_num, ?_⟩
  exact (blink_ear_normalization face478 (by norm_num [face478])).2.2.2.2.1
    (by rw [hear]; norm_num)

/-! ### Claim C7 -/

/-- C7: for a face landmark array passing the length guard, each returned
vowel weight lies in `[0, 1]`; when the five raw scores sum above 1 they are
rescaled by a common factor so the returned total is exactly 1; when the raw
sum is at most 1 the scores are returned unscaled and the total is at
most 1. -/
theorem mouth_weights_normalized (fl : LmArr) (h : 478 ≤ fl.size) :
    (0 ≤ (calculateMouthShape (some fl)).a ∧ (calculateMouthShape (some fl)).a ≤ 1) ∧
    (0 ≤ (calculateMouthShape (some fl)).i ∧ (calculateMouthShape (some fl)).i ≤ 1) ∧
    (0 ≤ (calculateMouthShape (some fl)).u ∧ (calculateMouthShape (some fl)).u ≤ 1) ∧
    (0 ≤ (calculateMouthShape (some fl)).e ∧ (calculateMouthShape (some fl)).e ≤ 1) ∧
    (0 ≤ (calculateMouthShape (some fl)).o ∧ (calculateMouthShape (some fl)).o ≤ 1) ∧
    (rawTotal fl > 1 →
      (calculateMouthShape (some fl)).a + (calculateMouthShape (some fl)).i +
      (calculateMouthShape (some fl)).u + (calculateMouthShape (some fl)).e +
      (calculateMouthShape (some fl)).o = 1) ∧
    (rawTotal fl ≤ 1 →
      calculateMouthShape (some fl) = ⟨rawA fl, rawI fl, rawU fl, rawE fl, rawO fl⟩ ∧
      (calculateMouthShape (some fl)).a + (calculateMouthShape (some fl)).i +
      (calculateMouthShape (some fl)).u + (calculateMouthShape (some fl)).e +
      (calculateMouthShape (some fl)).o ≤ 1) := by
  have hg : ¬ fl.size < 478 := by omega
  have ha0 := rawA_nonneg fl
  have hi0 := rawI_nonneg fl
  have hu0 := rawU_nonneg fl
  have he0 := rawE_nonneg fl
  have ho0 := rawO_nonneg fl
  have hsum : rawA fl + rawI fl + rawU fl + rawE fl + rawO fl = rawTotal fl := rfl
  by_cases htot : rawTotal fl > 1
  · have hpos : (0 : ℝ) < rawTotal fl := by linarith
    have hne : rawTotal fl ≠ 0 := ne_of_gt hpos
    have hbound : ∀ t : ℝ, 0 ≤ t → t ≤ rawTotal fl → 0 ≤ t * (1 / rawTotal fl) ∧
        t * (1 / rawTotal fl) ≤ 1 := by
      intro t ht0 htT
      constructor
      · exact mul_nonneg ht0 (by positivity)
      · rw [mul_one_div, div_le_one hpos]
        exact htT
    have hsc : (if rawTotal fl > 1 then 1 / rawTotal fl else 1) = 1 / rawTotal fl :=
      if_pos htot
    simp only [calculateMouthShape, hg, if_false, hsc]
    refine ⟨hbound _ ha0 (by linarith), hbound _ hi0 (by linarith),
      hbound _ hu0 (by linarith), hbound _ he0 (by linarith),
      hbound _ ho0 (by linarith), ?_, ?_⟩
    · intro _
      field_simp
      linarith [hsum]
    · intro hle
      linarith
  · have hle : rawTotal fl ≤ 1 := not_lt.mp htot
    have hsc : (if rawTotal fl > 1 then 1 / rawTotal fl else 1) = 1 := if_neg htot
    simp only [calculateMouthShape, hg, if_false, hsc, mul_one]
    refine ⟨⟨ha0, rawA_le_one fl⟩, ⟨hi0, rawI_le_one fl⟩, ⟨hu0, rawU_le_one fl⟩,
      ⟨he0, rawE_le_one fl⟩, ⟨ho0, rawO_le_one fl⟩, ?_, ?_⟩
    · intro hgt
      linarith
    · intro _
      exact ⟨trivial, by linarith [hsum]⟩

/-- Witness for C7 at a 478-point all-origin face array. -/
theorem mouth_weights_normalized_witness :
    478 ≤ face478.size ∧ 0 ≤ (calculateMouthShape (some face478)).a ∧
    (calculateMouthShape (some face478)).a ≤ 1 := by
  refine ⟨by norm_num [face478], ?_, ?_⟩
  · exact (mouth_weights_normalized face478 (by norm_num [face478])).1.1
  · exact (mouth_weights_normalized face478 (by norm_num [face478])).1.2

/-! ### atan2 evaluation lemmas -/

lemma atan2_of_xpos {y x : ℝ} (hx : 0 < x) : atan2 y x = Real.arctan (y / x) :=
  if_pos hx

lemma atan2_zero_one : atan2 0 1 = 0 := by
  rw [atan2_of_xpos one_pos]
  norm_num [Real.arctan_zero]

lemma atan2_one_zero : atan2 1 0 = Real.pi / 2 := by
  unfold atan2
  rw [if_neg (lt_irrefl 0), if_neg (lt_irrefl 0), if_pos one_pos]

lemma atan2_zero_zero : atan2 0 0 = 0 := by
  unfold atan2
  rw [if_neg (lt_irrefl 0), if_neg (lt_irrefl 0), if_neg (lt_irrefl 0),
    if_neg (lt_irrefl 0)]

/-! ### Claim C5 -/

/-- C5: with both leg segments above the epsilon guard,
`calculateLegRotations` zeroes the upper-leg sagittal (Z) rotation below the
0.15 rad dead zone, zeroes the knee bend below the 0.6 rad dead zone, and
always fixes the upper-leg X rotation at 0 (both sides). -/
theorem leg_dead_zones (lm : PoseLms) (rh rk ra lh lk la : Landmark)
    (h24 : lm 24 = some rh) (h26 : lm 26 = some rk) (h28 : lm 28 = some ra)
    (h23 : lm 23 = some lh) (h25 : lm 25 = some lk) (h27 : lm 27 = some la)
    (hru : vlen3 (rk.x - rh.x) (rk.y - rh.y) (rk.z - rh.z) > 0.01)
    (hrl : vlen3 (ra.x - rk.x) (ra.y - rk.y) (ra.z - rk.z) > 0.01)
    (hlu : vlen3 (lk.x - lh.x) (lk.y - lh.y) (lk.z - lh.z) > 0.01)
    (hll : vlen3 (la.x - lk.x) (la.y - lk.y) (la.z - lk.z) > 0.01) :
    (|legRotZraw rh rk| < 0.15 → (calculateLegRotations lm).RightUpperLeg.z = 0) ∧
    (bendAngle rh rk ra < 0.6 → (calculateLegRotations lm).RightLowerLeg.z = 0) ∧
    (calculateLegRotations lm).RightUpperLeg.x = 0 ∧
    (|legRotZraw lh lk| < 0.15 → (calculateLegRotations lm).LeftUpperLeg.z = 0) ∧
    (bendAngle lh lk la < 0.6 → (calculateLegRotations lm).LeftLowerLeg.z = 0) ∧
    (calculateLegRotations lm).LeftUpperLeg.x = 0 := by
  simp only [calculateLegRotations, h24, h26, h28, h23, h25, h27, legSide]
  refine ⟨?_, ?_, trivial, ?_, ?_, trivial⟩
  · intro hdz
    simp only [if_pos hru, if_pos hdz]
  · intro hknee
    simp only [if_pos (And.intro hru hrl), if_pos hknee]
  · intro hdz
    simp only [if_pos hlu, if_pos hdz]
  · intro hknee
    simp only [if_pos (And.intro hlu hll), if_pos hknee]

/-- A standing-pose landmark map: both legs vertical and straight. -/
def legW : PoseLms := fun i =>
  if i = 24 then some ⟨0, 0, 0⟩ else if i = 26 then some ⟨0, 1, 0⟩
  else if i = 28 then some ⟨0, 2, 0⟩ else if i = 23 then some ⟨1, 0, 0⟩
  else if i = 25 then some ⟨1, 1, 0⟩ else if i = 27 then some ⟨1, 2, 0⟩ else none

/-- Witness for C5: on the straight standing pose both dead zones engage and
every modelled leg rotation is 0. -/
theorem leg_dead_zones_witness :
    (calculateLegRotations legW).RightUpperLeg.z = 0 ∧
    (calculateLegRotations legW).RightLowerLeg.z = 0 ∧
    (calculateLegRotations legW).RightUpperLeg.x = 0 ∧
    (calculateLegRotations legW).LeftUpperLeg.z = 0 ∧
    (calculateLegRotations legW).LeftLowerLeg.z = 0 ∧
    (calculateLegRotations legW).LeftUpperLeg.x = 0 := by
  have hrotz : legRotZraw ⟨0, 0, 0⟩ ⟨0, 1, 0⟩ = 0 := by
    unfold legRotZraw vlen3
    norm_num [Real.sqrt_one, atan2_zero_one]
  have hrotzL : legRotZraw ⟨1, 0, 0⟩ ⟨1, 1, 0⟩ = 0 := by
    unfold legRotZraw vlen3
    norm_num [Real.sqrt_one, atan2_zero_one]
  have hbend : bendAngle ⟨0, 0, 0⟩ ⟨0, 1, 0⟩ ⟨0, 2, 0⟩ = 0 := by
    unfold bendAngle segDot vlen3
    norm_num [Real.sqrt_one, clamp1, Real.arccos_one]
  have hbendL : bendAngle ⟨1, 0, 0⟩ ⟨1, 1, 0⟩ ⟨1, 2, 0⟩ = 0 := by
    unfold bendAngle segDot vlen3
    norm_num [Real.sqrt_one, clamp1, Real.arccos_one]
  have h := leg_dead_zones legW ⟨0, 0, 0⟩ ⟨0, 1, 0⟩ ⟨0, 2, 0⟩ ⟨1, 0, 0⟩ ⟨1, 1, 0⟩ ⟨1, 2, 0⟩
    rfl rfl rfl rfl rfl rfl
    (by unfold vlen3; norm_num [Real.sqrt_one])
    (by unfold vlen3; norm_num [Real.sqrt_one])
    (by unfold vlen3; norm_num [Real.sqrt_one])
    (by unfold vlen3; norm_num [Real.sqrt_one])
  exact ⟨h.1 (by rw [hrotz]; norm_num), h.2.1 (by rw [hbend]; norm_num), h.2.2.1,
    h.2.2.2.1 (by rw [hrotzL]; norm_num), h.2.2.2.2.1 (by rw [hbendL]; norm_num),
    h.2.2.2.2.2⟩

/-! ### Arm-solver projection lemmas -/

lemma armAux_right_eq (rand : Nat → ℝ) (vl : Bool) (lm : PoseLms)
    (hand : Option HandsInput) (v : String) (rs re rw : Landmark)
    (h12 : lm 12 = some rs) (h14 : lm 14 = some re) (h16 : lm 16 = some rw) :
    (calculateArmRotationsAux rand vl lm hand v).1.RightUpperArm =
      ⟨(if vlen3 (re.x - rs.x) (re.y - rs.y) (re.z - rs.z) > 0.01 then
          (if isVrm0 v then armAngleX rs re else -armAngleX rs re) else 0),
       armTwistY ((hand.map HandsInput.rightHandLandmarks).join) rs re rw (-1) 1,
       (if vlen3 (re.x - rs.x) (re.y - rs.y) (re.z - rs.z) > 0.01 then
          (if isVrm0 v then
            Real.pi / 2 - armAngleZ rs re + shoulderTiltOf (lm 12) (lm 11) * 1.0
           else
            -(Real.pi / 2 - armAngleZ rs re + shoulderTiltOf (lm 12) (lm 11) * 1.0))
          else 0)⟩ ∧
    (calculateArmRotationsAux rand vl lm hand v).1.RightLowerArm =
      ⟨0, 0,
       (if vlen3 (re.x - rs.x) (re.y - rs.y) (re.z - rs.z) > 0.01 ∧
            vlen3 (rw.x - re.x) (rw.y - re.y) (rw.z - re.z) > 0.01 then
          -bendAngle rs re rw else 0)⟩ := by
  constructor <;> simp only [calculateArmRotationsAux, h12, h14, h16]

lemma armAux_left_eq (rand : Nat → ℝ) (vl : Bool) (lm : PoseLms)
    (hand : Option HandsInput) (v : String) (ls le lw : Landmark)
    (h11 : lm 11 = some ls) (h13 : lm 13 = some le) (h15 : lm 15 = some lw) :
    (calculateArmRotationsAux rand vl lm hand v).1.LeftUpperArm =
      ⟨(if vlen3 (le.x - ls.x) (le.y - ls.y) (le.z - ls.z) > 0.01 then
          (if isVrm0 v then -armAngleX ls le else armAngleX ls le) else 0),
       armTwistY ((hand.map HandsInput.leftHandLandmarks).join) ls le lw 1 (-1),
       (if vlen3 (le.x - ls.x) (le.y - ls.y) (le.z - ls.z) > 0.01 then
          (if isVrm0 v then
            -(Real.pi / 2 - armAngleZ ls le - shoulderTiltOf (lm 12) (lm 11) * 1.0)
           else
            Real.pi / 2 - armAngleZ ls le - shoulderTiltOf (lm 12) (lm 11) * 1.0)
          else 0)⟩ ∧
    (calculateArmRotationsAux rand vl lm hand v).1.LeftLowerArm =
      ⟨0, 0,
       (if vlen3 (le.x - ls.x) (le.y - ls.y) (le.z - ls.z) > 0.01 ∧
            vlen3 (lw.x - le.x) (lw.y - le.y) (lw.z - le.z) > 0.01 then
          bendAngle ls le lw else 0)⟩ := by
  constructor <;> simp only [calculateArmRotationsAux, h11, h13, h15]

/-! ### Claim C4 -/

/-- C4: with every limb-segment vector above the epsilon guard, the elbow
bend stored in `LowerArm.z` is exactly `acos` of the clamped
normalized-vector dot product, the knee bend is either that `acos` value or
its dead-zoned 0, all bend magnitudes lie in `[0, π]`, and every clamped
`acos` argument lies in `[-1, 1]`. -/
theorem bend_angles_acos_range (lm : PoseLms) (hand : Option HandsInput) (v : String)
    (rs re rw ls le lw rh rk ra lh lk la : Landmark)
    (h12 : lm 12 = some rs) (h14 : lm 14 = some re) (h16 : lm 16 = some rw)
    (h11 : lm 11 = some ls) (h13 : lm 13 = some le) (h15 : lm 15 = some lw)
    (h24 : lm 24 = some rh) (h26 : lm 26 = some rk) (h28 : lm 28 = some ra)
    (h23 : lm 23 = some lh) (h25 : lm 25 = some lk) (h27 : lm 27 = some la)
    (hru : vlen3 (re.x - rs.x) (re.y - rs.y) (re.z - rs.z) > 0.01)
    (hrl : vlen3 (rw.x - re.x) (rw.y - re.y) (rw.z - re.z) > 0.01)
    (hlu : vlen3 (le.x - ls.x) (le.y - ls.y) (le.z - ls.z) > 0.01)
    (hll : vlen3 (lw.x - le.x) (lw.y - le.y) (lw.z - le.z) > 0.01)
    (hruL : vlen3 (rk.x - rh.x) (rk.y - rh.y) (rk.z - rh.z) > 0.01)
    (hrlL : vlen3 (ra.x - rk.x) (ra.y - rk.y) (ra.z - rk.z) > 0.01)
    (hluL : vlen3 (lk.x - lh.x) (lk.y - lh.y) (lk.z - lh.z) > 0.01)
    (hllL : vlen3 (la.x - lk.x) (la.y - lk.y) (la.z - lk.z) > 0.01) :
    (calculateArmRotations lm hand v).RightLowerArm.z =
      -Real.arccos (clamp1 (segDot rs re rw)) ∧
    (0 ≤ -(calculateArmRotations lm hand v).RightLowerArm.z ∧
      -(calculateArmRotations lm hand v).RightLowerArm.z ≤ Real.pi) ∧
    (calculateArmRotations lm hand v).LeftLowerArm.z =
      Real.arccos (clamp1 (segDot ls le lw)) ∧
    (0 ≤ (calculateArmRotations lm hand v).LeftLowerArm.z ∧
      (calculateArmRotations lm hand v).LeftLowerArm.z ≤ Real.pi) ∧
    ((calculateLegRotations lm).RightLowerLeg.z = 0 ∨
      (calculateLegRotations lm).RightLowerLeg.z =
        -Real.arccos (clamp1 (segDot rh rk ra))) ∧
    (0 ≤ -(calculateLegRotations lm).RightLowerLeg.z ∧
      -(calculateLegRotations lm).RightLowerLeg.z ≤ Real.pi) ∧
    ((calculateLegRotations lm).LeftLowerLeg.z = 0 ∨
      (calculateLegRotations lm).LeftLowerLeg.z =
        Real.arccos (clamp1 (segDot lh lk la))) ∧
    (0 ≤ (calculateLegRotations lm).LeftLowerLeg.z ∧
      (calculateLegRotations lm).LeftLowerLeg.z ≤ Real.pi) ∧
    (-1 ≤ clamp1 (segDot rs re rw) ∧ clamp1 (segDot rs re rw) ≤ 1) ∧
    (-1 ≤ clamp1 (segDot ls le lw) ∧ clamp1 (segDot ls le lw) ≤ 1) ∧
    (-1 ≤ clamp1 (segDot rh rk ra) ∧ clamp1 (segDot rh rk ra) ≤ 1) ∧
    (-1 ≤ clamp1 (segDot lh lk la) ∧ clamp1 (segDot lh lk la) ≤ 1) := by
  have hRarm : (calculateArmRotations lm hand v).RightLowerArm =
      (⟨0, 0,
        (if vlen3 (re.x - rs.x) (re.y - rs.y) (re.z - rs.z) > 0.01 ∧
             vlen3 (rw.x - re.x) (rw.y - re.y) (rw.z - re.z) > 0.01 then
           -bendAngle rs re rw else 0)⟩ : Rot) :=
    (armAux_right_eq (fun _ => 1) true lm hand v rs re rw h12 h14 h16).2
  have hLarm : (calculateArmRotations lm hand v).LeftLowerArm =
      (⟨0, 0,
        (if vlen3 (le.x - ls.x) (le.y - ls.y) (le.z - ls.z) > 0.01 ∧
             vlen3 (lw.x - le.x) (lw.y - le.y) (lw.z - le.z) > 0.01 then
           bendAngle ls le lw else 0)⟩ : Rot) :=
    (armAux_left_eq (fun _ => 1) true lm hand v ls le lw h11 h13 h15).2
  have hRz : (calculateArmRotations lm hand v).RightLowerArm.z = -bendAngle rs re rw := by
    rw [hRarm]
    simp only [if_pos (And.intro hru hrl)]
  have hLz : (calculateArmRotations lm hand v).LeftLowerArm.z = bendAngle ls le lw := by
    rw [hLarm]
    simp only [if_pos (And.intro hlu hll)]
  have hRleg : (calculateLegRotations lm).RightLowerLeg.z =
      (if bendAngle rh rk ra < 0.6 then 0 else (-1) * bendAngle rh rk ra) := by
    simp only [calculateLegRotations, h24, h26, h28, h23, h25, h27, legSide]
    simp only [if_pos (And.intro hruL hrlL)]
  have hLleg : (calculateLegRotations lm).LeftLowerLeg.z =
      (if bendAngle lh lk la < 0.6 then 0 else 1 * bendAngle lh lk la) := by
    simp only [calculateLegRotations, h24, h26, h28, h23, h25, h27, legSide]
    simp only [if_pos (And.intro hluL hllL)]
  have hb0 : ∀ p q r : Landmark, 0 ≤ bendAngle p q r := fun p q r =>
    Real.arccos_nonneg _
  have hbpi : ∀ p q r : Landmark, bendAngle p q r ≤ Real.pi := fun p q r =>
    Real.arccos_le_pi _
  refine ⟨by rw [hRz]; rfl, ?_, by rw [hLz]; rfl, ?_, ?_, ?_, ?_, ?_,
    ⟨clamp1_lb _, clamp1_ub _⟩, ⟨clamp1_lb _, clamp1_ub _⟩,
    ⟨clamp1_lb _, clamp1_ub _⟩, ⟨clamp1_lb _, clamp1_ub _⟩⟩
  · rw [hRz]
    exact ⟨by simpa using hb0 rs re rw, by simpa using hbpi rs re rw⟩
  · rw [hLz]
    exact ⟨hb0 ls le lw, hbpi ls le lw⟩
  · rw [hRleg]
    by_cases hdz : bendAngle rh rk ra < 0.6
    · exact Or.inl (if_pos hdz)
    · refine Or.inr ?_
      rw [if_neg hdz]
      unfold bendAngle
      ring
  · rw [hRleg]
    by_cases hdz : bendAngle rh rk ra < 0.6
    · rw [if_pos hdz]
      simp [Real.pi_pos.le]
    · rw [if_neg hdz]
      refine ⟨by simpa using hb0 rh rk ra, by simpa using hbpi rh rk ra⟩
  · rw [hLleg]
    by_cases hdz : bendAngle lh lk la < 0.6
    · exact Or.inl (if_pos hdz)
    · refine Or.inr ?_
      rw [if_neg hdz]
      unfold bendAngle
      ring
  · rw [hLleg]
    by_cases hdz : bendAngle lh lk la < 0.6
    · rw [if_pos hdz]
      simp [Real.pi_pos.le]
    · rw [if_neg hdz]
      refine ⟨by simpa using hb0 lh lk la, by simpa using hbpi lh lk la⟩

/-- A full-body landmark map: both arms and both legs vertical (straight
down), all segment lengths 1. -/
def bodyW : PoseLms := fun i =>
  if i = 12 then some ⟨0, 0, 0⟩ else if i = 14 then some ⟨0, 1, 0⟩
  else if i = 16 then some ⟨0, 2, 0⟩ else if i = 11 then some ⟨1, 0, 0⟩
  else if i = 13 then some ⟨1, 1, 0⟩ else if i = 15 then some ⟨1, 2, 0⟩
  else if i = 24 then some ⟨0, 3, 0⟩ else if i = 26 then some ⟨0, 4, 0⟩
  else if i = 28 then some ⟨0, 5, 0⟩ else if i = 23 then some ⟨1, 3, 0⟩
  else if i = 25 then some ⟨1, 4, 0⟩ else if i = 27 then some ⟨1, 5, 0⟩
  else none

/-- Witness for C4 on the straight full-body pose. -/
theorem bend_angles_acos_range_witness :
    (calculateArmRotations bodyW none "1").RightLowerArm.z =
      -Real.arccos (clamp1 (segDot ⟨0, 0, 0⟩ ⟨0, 1, 0⟩ ⟨0, 2, 0⟩)) ∧
    0 ≤ -(calculateArmRotations bodyW none "1").RightLowerArm.z ∧
    -(calculateArmRotations bodyW none "1").RightLowerArm.z ≤ Real.pi ∧
    -1 ≤ clamp1 (segDot (⟨0, 0, 0⟩ : Landmark) ⟨0, 1, 0⟩ ⟨0, 2, 0⟩) ∧
    clamp1 (segDot (⟨0, 0, 0⟩ : Landmark) ⟨0, 1, 0⟩ ⟨0, 2, 0⟩) ≤ 1 := by
  have h := bend_angles_acos_range bodyW none "1"
    ⟨0, 0, 0⟩ ⟨0, 1, 0⟩ ⟨0, 2, 0⟩ ⟨1, 0, 0⟩ ⟨1, 1, 0⟩ ⟨1, 2, 0⟩
    ⟨0, 3, 0⟩ ⟨0, 4, 0⟩ ⟨0, 5, 0⟩ ⟨1, 3, 0⟩ ⟨1, 4, 0⟩ ⟨1, 5, 0⟩
    rfl rfl rfl rfl rfl rfl rfl rfl rfl rfl rfl rfl
    (by unfold vlen3; norm_num [Real.sqrt_one])
    (by unfold vlen3; norm_num [Real.sqrt_one])
    (by unfold vlen3; norm_num [Real.sqrt_one])
    (by unfold vlen3; norm_num [Real.sqrt_one])
    (by unfold vlen3; norm_num [Real.sqrt_one])
    (by unfold vlen3; norm_num [Real.sqrt_one])
    (by unfold vlen3; norm_num [Real.sqrt_one])
    (by unfold vlen3; norm_num [Real.sqrt_one])
  exact ⟨h.1, h.2.1.1, h.2.1.2, h.2.2.2.2.2.2.2.2.1.1, h.2.2.2.2.2.2.2.2.1.2⟩

/-! ### Claim C1 -/

/-- C1 (amended): with a non-degenerate shoulder→elbow vector, the arm
raise/lower rotation written to `UpperArm.z` follows the four-quadrant sign
truth table over rig version and side — current rig ('1'): right negates,
left keeps; legacy rig ('0'): right keeps, left negates — applied to the
compensated mapped angle `π/2 − angleZ ± shoulderHeightDiff` (the
shoulder-height compensation is added for the right arm and subtracted for
the left arm before the sign flip). -/
theorem arm_z_sign_truth_table (lm : PoseLms) (hand : Option HandsInput) (v : String)
    (rs re rw ls le lw : Landmark)
    (h12 : lm 12 = some rs) (h14 : lm 14 = some re) (h16 : lm 16 = some rw)
    (h11 : lm 11 = some ls) (h13 : lm 13 = some le) (h15 : lm 15 = some lw)
    (hrlen : vlen3 (re.x - rs.x) (re.y - rs.y) (re.z - rs.z) > 0.01)
    (hllen : vlen3 (le.x - ls.x) (le.y - ls.y) (le.z - ls.z) > 0.01) :
    (calculateArmRotations lm hand v).RightUpperArm.z =
      (if isVrm0 v then
        Real.pi / 2 - armAngleZ rs re + shoulderTiltOf (lm 12) (lm 11) * 1.0
       else
        -(Real.pi / 2 - armAngleZ rs re + shoulderTiltOf (lm 12) (lm 11) * 1.0)) ∧
    (calculateArmRotations lm hand v).LeftUpperArm.z =
      (if isVrm0 v then
        -(Real.pi / 2 - armAngleZ ls le - shoulderTiltOf (lm 12) (lm 11) * 1.0)
       else
        Real.pi / 2 - armAngleZ ls le - shoulderTiltOf (lm 12) (lm 11) * 1.0) := by
  have hR : (calculateArmRotations lm hand v).RightUpperArm =
      (⟨(if vlen3 (re.x - rs.x) (re.y - rs.y) (re.z - rs.z) > 0.01 then
          (if isVrm0 v then armAngleX rs re else -armAngleX rs re) else 0),
        armTwistY ((Option.map HandsInput.rightHandLandmarks hand).join) rs re rw (-1) 1,
        (if vlen3 (re.x - rs.x) (re.y - rs.y) (re.z - rs.z) > 0.01 then
          (if isVrm0 v then
            Real.pi / 2 - armAngleZ rs re + shoulderTiltOf (lm 12) (lm 11) * 1.0
           else
            -(Real.pi / 2 - armAngleZ rs re + shoulderTiltOf (lm 12) (lm 11) * 1.0))
          else 0)⟩ : Rot) :=
    (armAux_right_eq (fun _ => 1) true lm hand v rs re rw h12 h14 h16).1
  have hL : (calculateArmRotations lm hand v).LeftUpperArm =
      (⟨(if vlen3 (le.x - ls.x) (le.y - ls.y) (le.z - ls.z) > 0.01 then
          (if isVrm0 v then -armAngleX ls le else armAngleX ls le) else 0),
        armTwistY ((Option.map HandsInput.leftHandLandmarks hand).join) ls le lw 1 (-1),
        (if vlen3 (le.x - ls.x) (le.y - ls.y) (le.z - ls.z) > 0.01 then
          (if isVrm0 v then
            -(Real.pi / 2 - armAngleZ ls le - shoulderTiltOf (lm 12) (lm 11) * 1.0)
           else
            Real.pi / 2 - armAngleZ ls le - shoulderTiltOf (lm 12) (lm 11) * 1.0)
          else 0)⟩ : Rot) :=
    (armAux_left_eq (fun _ => 1) true lm hand v ls le lw h11 h13 h15).1
  constructor
  · rw [hR]
    simp only [if_pos hrlen]
  · rw [hL]
    simp only [if_pos hllen]

/-- Witness for C1 (amended) on the straight full-body pose with the current
('1') rig: right arm negated, left arm kept. -/
theorem arm_z_sign_truth_table_witness :
    (calculateArmRotations bodyW none "1").RightUpperArm.z =
      -(Real.pi / 2 - armAngleZ ⟨0, 0, 0⟩ ⟨0, 1, 0⟩ +
        shoulderTiltOf (bodyW 12) (bodyW 11) * 1.0) ∧
    (calculateArmRotations bodyW none "1").LeftUpperArm.z =
      Real.pi / 2 - armAngleZ ⟨1, 0, 0⟩ ⟨1, 1, 0⟩ -
        shoulderTiltOf (bodyW 12) (bodyW 11) * 1.0 := by
  have h := arm_z_sign_truth_table bodyW none "1"
    ⟨0, 0, 0⟩ ⟨0, 1, 0⟩ ⟨0, 2, 0⟩ ⟨1, 0, 0⟩ ⟨1, 1, 0⟩ ⟨1, 2, 0⟩
    rfl rfl rfl rfl rfl rfl
    (by unfold vlen3; norm_num [Real.sqrt_one])
    (by unfold vlen3; norm_num [Real.sqrt_one])
  have hv : isVrm0 "1" = false := rfl
  refine ⟨?_, ?_⟩
  · rw [h.1, hv]
    simp
  · rw [h.2, hv]
    simp

/-- The counterexample input for C1: right arm horizontal, left shoulder
higher than the right shoulder (so the shoulder-height compensation is
non-zero), left elbow and wrist absent. -/
def armTiltCE : PoseLms := fun i =>
  if i = 12 then some ⟨0, 0, 0⟩ else if i = 14 then some ⟨1, 0, 0⟩
  else if i = 16 then some ⟨2, 0, 0⟩ else if i = 11 then some ⟨0, -1, 0⟩
  else none

/-- Counterexample for C1 as stated: with the current rig, the right arm's
stored Z rotation is not `-(π/2 − angleZ)` when the shoulders are tilted —
the compensation term shifts it (here the stored value is `π/4`, the claimed
formula gives 0). -/
theorem arm_z_sign_truth_table_counterexample :
    (calculateArmRotations armTiltCE none "1").RightUpperArm.z ≠
      -(Real.pi / 2 - armAngleZ ⟨0, 0, 0⟩ ⟨1, 0, 0⟩) := by
  have hZ : armAngleZ ⟨0, 0, 0⟩ ⟨1, 0, 0⟩ = Real.pi / 2 := by
    unfold armAngleZ vlen3
    norm_num [Real.sqrt_one, atan2_one_zero]
  have hTilt : shoulderTiltOf (armTiltCE 12) (armTiltCE 11) = -(Real.pi / 4) := by
    show shoulderTiltOf (some ⟨0, 0, 0⟩) (some ⟨0, -1, 0⟩) = _
    simp only [shoulderTiltOf]
    norm_num [vlen3, Real.sqrt_one]
    rw [atan2_of_xpos one_pos]
    norm_num [Real.arctan_neg, Real.arctan_one]
  have hR : (calculateArmRotations armTiltCE none "1").RightUpperArm =
      (⟨(if vlen3 ((1 : ℝ) - 0) (0 - 0) (0 - 0) > 0.01 then
          (if isVrm0 "1" then armAngleX ⟨0, 0, 0⟩ ⟨1, 0, 0⟩
           else -armAngleX ⟨0, 0, 0⟩ ⟨1, 0, 0⟩) else 0),
        armTwistY ((Option.map HandsInput.rightHandLandmarks none).join)
          ⟨0, 0, 0⟩ ⟨1, 0, 0⟩ ⟨2, 0, 0⟩ (-1) 1,
        (if vlen3 ((1 : ℝ) - 0) (0 - 0) (0 - 0) > 0.01 then
          (if isVrm0 "1" then
            Real.pi / 2 - armAngleZ ⟨0, 0, 0⟩ ⟨1, 0, 0⟩ +
              shoulderTiltOf (armTiltCE 12) (armTiltCE 11) * 1.0
           else
            -(Real.pi / 2 - armAngleZ ⟨0, 0, 0⟩ ⟨1, 0, 0⟩ +
              shoulderTiltOf (armTiltCE 12) (armTiltCE 11) * 1.0))
          else 0)⟩ : Rot) :=
    (armAux_right_eq (fun _ => 1) true armTiltCE none "1"
      ⟨0, 0, 0⟩ ⟨1, 0, 0⟩ ⟨2, 0, 0⟩ rfl rfl rfl).1
  have hlen : vlen3 ((1 : ℝ) - 0) (0 - 0) (0 - 0) > 0.01 := by
    unfold vlen3
    norm_num [Real.sqrt_one]
  have hv : isVrm0 "1" = false := rfl
  rw [hR]
  simp only [if_pos hlen, hv, Bool.false_eq_true, if_false, hZ, hTilt]
  intro hcontra
  have hpi := Real.pi_ne_zero
  apply hpi
  linarith

/-! ### Claim C3 -/

/-- C3 (amended): when a side's shoulder and elbow coincide (shoulder→elbow
length at most the 0.01 epsilon), that side's `UpperArm.x` (tilt) and
`UpperArm.z` (raise/lower) and the whole `LowerArm` triple are exactly 0 —
never NaN — but the `UpperArm.y` twist is still computed from the forearm
(or palm) direction and need not be 0. -/
theorem degenerate_arm_zeroes_raise_tilt_bend (lm : PoseLms) (hand : Option HandsInput)
    (v : String) (rs re rw ls le lw : Landmark)
    (h12 : lm 12 = some rs) (h14 : lm 14 = some re) (h16 : lm 16 = some rw)
    (h11 : lm 11 = some ls) (h13 : lm 13 = some le) (h15 : lm 15 = some lw)
    (hr : vlen3 (re.x - rs.x) (re.y - rs.y) (re.z - rs.z) ≤ 0.01)
    (hl : vlen3 (le.x - ls.x) (le.y - ls.y) (le.z - ls.z) ≤ 0.01) :
    (calculateArmRotations lm hand v).RightUpperArm.x = 0 ∧
    (calculateArmRotations lm hand v).RightUpperArm.z = 0 ∧
    (calculateArmRotations lm hand v).RightLowerArm = Rot.zero ∧
    (calculateArmRotations lm hand v).LeftUpperArm.x = 0 ∧
    (calculateArmRotations lm hand v).LeftUpperArm.z = 0 ∧
    (calculateArmRotations lm hand v).LeftLowerArm = Rot.zero := by
  obtain ⟨hRU, hRL⟩ := armAux_right_eq (fun _ => 1) true lm hand v rs re rw h12 h14 h16
  obtain ⟨hLU, hLL⟩ := armAux_left_eq (fun _ => 1) true lm hand v ls le lw h11 h13 h15
  have hrn : ¬ vlen3 (re.x - rs.x) (re.y - rs.y) (re.z - rs.z) > 0.01 := not_lt.mpr hr
  have hln : ¬ vlen3 (le.x - ls.x) (le.y - ls.y) (le.z - ls.z) > 0.01 := not_lt.mpr hl
  refine ⟨?_, ?_, ?_, ?_, ?_, ?_⟩
  · rw [show (calculateArmRotations lm hand v).RightUpperArm = _ from hRU]
    simp only [if_neg hrn]
  · rw [show (calculateArmRotations lm hand v).RightUpperArm = _ from hRU]
    simp only [if_neg hrn]
  · rw [show (calculateArmRotations lm hand v).RightLowerArm = _ from hRL]
    rw [if_neg (by intro hc; exact hrn hc.1)]
    rfl
  · rw [show (calculateArmRotations lm hand v).LeftUpperArm = _ from hLU]
    simp only [if_neg hln]
  · rw [show (calculateArmRotations lm hand v).LeftUpperArm = _ from hLU]
    simp only [if_neg hln]
  · rw [show (calculateArmRotations lm hand v).LeftLowerArm = _ from hLL]
    rw [if_neg (by intro hc; exact hln hc.1)]
    rfl

/-- A landmark map where both shoulders coincide with their elbows while the
wrists are elsewhere. -/
def degArmW : PoseLms := fun i =>
  if i = 12 then some ⟨0, 0, 0⟩ else if i = 14 then some ⟨0, 0, 0⟩
  else if i = 16 then some ⟨1, 0, 1⟩ else if i = 11 then some ⟨2, 0, 0⟩
  else if i = 13 then some ⟨2, 0, 0⟩ else if i = 15 then some ⟨3, 0, 1⟩
  else none

/-- Witness for C3 (amended) on coincident shoulder/elbow input. -/
theorem degenerate_arm_zeroes_witness :
    (calculateArmRotations degArmW none "1").RightUpperArm.x = 0 ∧
    (calculateArmRotations degArmW none "1").RightUpperArm.z = 0 ∧
    (calculateArmRotations degArmW none "1").RightLowerArm = Rot.zero ∧
    (calculateArmRotations degArmW none "1").LeftUpperArm.x = 0 ∧
    (calculateArmRotations degArmW none "1").LeftUpperArm.z = 0 ∧
    (calculateArmRotations degArmW none "1").LeftLowerArm = Rot.zero :=
  degenerate_arm_zeroes_raise_tilt_bend degArmW none "1"
    ⟨0, 0, 0⟩ ⟨0, 0, 0⟩ ⟨1, 0, 1⟩ ⟨2, 0, 0⟩ ⟨2, 0, 0⟩ ⟨3, 0, 1⟩
    rfl rfl rfl rfl rfl rfl
    (by unfold vlen3; norm_num [Real.sqrt_zero])
    (by unfold vlen3; norm_num [Real.sqrt_zero])

/-- Counterexample for C3 as stated: with coincident shoulder and elbow but a
distinct wrist (and no hand landmarks), the fallback twist still runs and the
returned `RightUpperArm` triple is `{0, π/8, 0}`, not `{0, 0, 0}`. -/
theorem degenerate_arm_counterexample :
    (calculateArmRotations degArmW none "1").RightUpperArm ≠ Rot.zero := by
  have h1 : atan2 1 1 = Real.pi / 4 := by
    rw [atan2_of_xpos one_pos]
    norm_num [Real.arctan_one]
  have hpi := Real.pi_pos
  have hfb : fallbackTwist ⟨0, 0, 0⟩ ⟨0, 0, 0⟩ ⟨1, 0, 1⟩ = Real.pi / 4 := by
    simp only [fallbackTwist]
    norm_num [h1, atan2_zero_zero]
    rw [if_neg (by linarith : ¬ Real.pi / 4 > Real.pi),
      if_neg (by linarith : ¬ Real.pi / 4 < -Real.pi)]
  have hy : armTwistY none ⟨0, 0, 0⟩ ⟨0, 0, 0⟩ ⟨1, 0, 1⟩ (-1) 1 = Real.pi / 8 := by
    simp only [armTwistY]
    rw [hfb]
    ring
  have hRU := (armAux_right_eq (fun _ => 1) true degArmW none "1"
    ⟨0, 0, 0⟩ ⟨0, 0, 0⟩ ⟨1, 0, 1⟩ rfl rfl rfl).1
  rw [show (calculateArmRotations degArmW none "1").RightUpperArm = _ from hRU]
  intro hEq
  have hyEq := congrArg Rot.y hEq
  simp only [Rot.zero] at hyEq
  rw [show (Option.map HandsInput.rightHandLandmarks none).join = none from rfl] at hyEq
  rw [hy] at hyEq
  exact Real.pi_ne_zero (by linarith)

/-! ### Claim C2 -/

/-- C2 (amended): the arm, leg, finger and face solvers degrade gracefully on
missing inputs — a side with a missing landmark yields zero triples for that
side (arms, legs), a missing or short hand yields `null` (fingers), a missing
face array yields `null` — but `calculateBodyRotations` is total only when
both shoulders and both hips are present: it dereferences them unguarded and
throws a `TypeError` otherwise, while missing nose/ear landmarks merely make
`Neck` and `Head` null with the remaining slots still produced. -/
theorem missing_inputs_amended (lm : PoseLms) (hand : Option HandsInput) (v : String)
    (b : Bool) (hl : LmArr) :
    (lm 16 = none →
      (calculateArmRotations lm hand v).RightUpperArm = Rot.zero ∧
      (calculateArmRotations lm hand v).RightLowerArm = Rot.zero) ∧
    (lm 15 = none →
      (calculateArmRotations lm hand v).LeftUpperArm = Rot.zero ∧
      (calculateArmRotations lm hand v).LeftLowerArm = Rot.zero) ∧
    (lm 26 = none →
      (calculateLegRotations lm).RightUpperLeg = Rot.zero ∧
      (calculateLegRotations lm).RightLowerLeg = Rot.zero) ∧
    (lm 25 = none →
      (calculateLegRotations lm).LeftUpperLeg = Rot.zero ∧
      (calculateLegRotations lm).LeftLowerLeg = Rot.zero) ∧
    calculateFingerRotations none b = none ∧
    (hl.size < 21 → calculateFingerRotations (some hl) b = none) ∧
    calculateFaceExpressions none = none ∧
    ((calculateBodyRotations lm).isOk = true ↔
      (lm 12).isSome = true ∧ (lm 11).isSome = true ∧
      (lm 24).isSome = true ∧ (lm 23).isSome = true) ∧
    (∀ rSh lSh rHip lHip : Landmark, lm 12 = some rSh → lm 11 = some lSh →
      lm 24 = some rHip → lm 23 = some lHip → lm 0 = none →
      (calculateBodyRotations lm).toOption.map BodyPose.Neck = some none ∧
      (calculateBodyRotations lm).toOption.map BodyPose.Head = some none) := by
  refine ⟨?_, ?_, ?_, ?_, rfl, ?_, rfl, ?_, ?_⟩
  · intro h16
    cases h12 : lm 12 <;> cases h14 : lm 14 <;>
      exact ⟨by simp [calculateArmRotations, calculateArmRotationsAux, h12, h14, h16],
        by simp [calculateArmRotations, calculateArmRotationsAux, h12, h14, h16]⟩
  · intro h15
    cases h11 : lm 11 <;> cases h13 : lm 13 <;>
      exact ⟨by simp [calculateArmRotations, calculateArmRotationsAux, h11, h13, h15],
        by simp [calculateArmRotations, calculateArmRotationsAux, h11, h13, h15]⟩
  · intro h26
    cases h24 : lm 24 <;>
      exact ⟨by simp [calculateLegRotations, h24, h26],
        by simp [calculateLegRotations, h24, h26]⟩
  · intro h25
    cases h23 : lm 23 <;>
      exact ⟨by simp [calculateLegRotations, h23, h25],
        by simp [calculateLegRotations, h23, h25]⟩
  · intro hshort
    simp [calculateFingerRotations, hshort]
  · cases h12 : lm 12 <;> cases h11 : lm 11 <;> cases h24 : lm 24 <;> cases h23 : lm 23 <;>
      simp [calculateBodyRotations, h12, h11, h24, h23, Except.isOk, Except.toBool]
  · intro rSh lSh rHip lHip h12 h11 h24 h23 h0
    constructor <;>
      simp [calculateBodyRotations, h12, h11, h24, h23, h0, Except.toOption]

/-- Counterexample for C2 as stated: on an all-missing landmark array
`calculateBodyRotations` throws (dereferences an absent shoulder), rather
than zeroing the affected slot and continuing. -/
theorem missing_inputs_counterexample :
    calculateBodyRotations (fun _ => none) = Except.error "TypeError" := rfl

/-- A torso-only landmark map: shoulders and hips present, face landmarks
absent. -/
def torsoW : PoseLms := fun i =>
  if i = 11 then some ⟨1, 0, 0⟩ else if i = 12 then some ⟨0, 0, 0⟩
  else if i = 23 then some ⟨1, 1, 0⟩ else if i = 24 then some ⟨0, 1, 0⟩
  else none

/-- Witness for C2 (amended): zero triples on missing arm/leg landmarks, null
finger result on a short hand, and a body pose with null `Neck` on a
torso-only input. -/
theorem missing_inputs_amended_witness :
    (calculateArmRotations (fun _ => none) none "1").RightUpperArm = Rot.zero ∧
    (calculateLegRotations (fun _ => none)).RightUpperLeg = Rot.zero ∧
    calculateFingerRotations (some ⟨5, fun _ => zeroLm⟩) true = none ∧
    (calculateBodyRotations torsoW).isOk = true ∧
    (calculateBodyRotations torsoW).toOption.map BodyPose.Neck = some none := by
  have h1 := missing_inputs_amended (fun _ => none) none "1" true ⟨5, fun _ => zeroLm⟩
  have h2 := missing_inputs_amended torsoW none "1" true ⟨5, fun _ => zeroLm⟩
  refine ⟨(h1.1 rfl).1, (h1.2.2.1 rfl).1, h1.2.2.2.2.2.1 (by norm_num), ?_, ?_⟩
  · exact h2.2.2.2.2.2.2.2.1.mpr ⟨rfl, rfl, rfl, rfl⟩
  · exact (h2.2.2.2.2.2.2.2.2 ⟨0, 0, 0⟩ ⟨1, 0, 0⟩ ⟨0, 1, 0⟩ ⟨1, 1, 0⟩
      rfl rfl rfl rfl rfl).1

/-! ### Claim C8 -/

/-- C8: `applyTemporalSmoothing` passes the current pose through unchanged on
the first frame (null previous pose); otherwise every smoothed bone entry and
axis present in both poses is blended as
`previous + (current − previous) × (1 − factor)` with factor 0.1 for the
upper-arm Y (twist) axis, 0.6 for `Neck`/`Head`, 0.2 for blink entries, 0.4
for mouth entries and the 0.3 default elsewhere; and the driver blends each
frame against the prior frame's smoothed pose. -/
theorem temporal_smoothing_blend (c p : SmoothPose) (prev0 : Option SmoothPose)
    (r1 r2 : SmoothPose) :
    applyTemporalSmoothing c none = c ∧
    (∀ cr pr : Rot, c.RightUpperArm = some cr → p.RightUpperArm = some pr →
      (applyTemporalSmoothing c (some p)).RightUpperArm =
        some ⟨blend 0.3 cr.x pr.x, blend 0.1 cr.y pr.y, blend 0.3 cr.z pr.z⟩) ∧
    (∀ cr pr : Rot, c.LeftUpperArm = some cr → p.LeftUpperArm = some pr →
      (applyTemporalSmoothing c (some p)).LeftUpperArm =
        some ⟨blend 0.3 cr.x pr.x, blend 0.1 cr.y pr.y, blend 0.3 cr.z pr.z⟩) ∧
    (∀ cr pr : Rot, c.Neck = some cr → p.Neck = some pr →
      (applyTemporalSmoothing c (some p)).Neck =
        some ⟨blend 0.6 cr.x pr.x, blend 0.6 cr.y pr.y, blend 0.6 cr.z pr.z⟩) ∧
    (∀ cr pr : Rot, c.Head = some cr → p.Head = some pr →
      (applyTemporalSmoothing c (some p)).Head =
        some ⟨blend 0.6 cr.x pr.x, blend 0.6 cr.y pr.y, blend 0.6 cr.z pr.z⟩) ∧
    (∀ cr pr : Rot, c.RightLowerArm = some cr → p.RightLowerArm = some pr →
      (applyTemporalSmoothing c (some p)).RightLowerArm =
        some ⟨blend 0.3 cr.x pr.x, blend 0.3 cr.y pr.y, blend 0.3 cr.z pr.z⟩) ∧
    (∀ cr pr : Rot, c.LeftLowerArm = some cr → p.LeftLowerArm = some pr →
      (applyTemporalSmoothing c (some p)).LeftLowerArm =
        some ⟨blend 0.3 cr.x pr.x, blend 0.3 cr.y pr.y, blend 0.3 cr.z pr.z⟩) ∧
    (∀ cr pr : Rot, c.RightUpperLeg = some cr → p.RightUpperLeg = some pr →
      (applyTemporalSmoothing c (some p)).RightUpperLeg =
        some ⟨blend 0.3 cr.x pr.x, blend 0.3 cr.y pr.y, blend 0.3 cr.z pr.z⟩) ∧
    (∀ cr pr : Rot, c.RightLowerLeg = some cr → p.RightLowerLeg = some pr →
      (applyTemporalSmoothing c (some p)).RightLowerLeg =
        some ⟨blend 0.3 cr.x pr.x, blend 0.3 cr.y pr.y, blend 0.3 cr.z pr.z⟩) ∧
    (∀ cr pr : Rot, c.LeftUpperLeg = some cr → p.LeftUpperLeg = some pr →
      (applyTemporalSmoothing c (some p)).LeftUpperLeg =
        some ⟨blend 0.3 cr.x pr.x, blend 0.3 cr.y pr.y, blend 0.3 cr.z pr.z⟩) ∧
    (∀ cr pr : Rot, c.LeftLowerLeg = some cr → p.LeftLowerLeg = some pr →
      (applyTemporalSmoothing c (some p)).LeftLowerLeg =
        some ⟨blend 0.3 cr.x pr.x, blend 0.3 cr.y pr.y, blend 0.3 cr.z pr.z⟩) ∧
    (∀ cr pr : Rot, c.Hips = some cr → p.Hips = some pr →
      (applyTemporalSmoothing c (some p)).Hips =
        some ⟨blend 0.3 cr.x pr.x, blend 0.3 cr.y pr.y, blend 0.3 cr.z pr.z⟩) ∧
    (∀ cr pr : Rot, c.Spine = some cr → p.Spine = some pr →
      (applyTemporalSmoothing c (some p)).Spine =
        some ⟨blend 0.3 cr.x pr.x, blend 0.3 cr.y pr.y, blend 0.3 cr.z pr.z⟩) ∧
    (∀ cr pr : Rot, c.RightShoulder = some cr → p.RightShoulder = some pr →
      (applyTemporalSmoothing c (some p)).RightShoulder =
        some ⟨blend 0.3 cr.x pr.x, blend 0.3 cr.y pr.y, blend 0.3 cr.z pr.z⟩) ∧
    (∀ cr pr : Rot, c.LeftShoulder = some cr → p.LeftShoulder = some pr →
      (applyTemporalSmoothing c (some p)).LeftShoulder =
        some ⟨blend 0.3 cr.x pr.x, blend 0.3 cr.y pr.y, blend 0.3 cr.z pr.z⟩) ∧
    (∀ cf pf : FaceExpr, c.Face = some cf → p.Face = some pf →
      (applyTemporalSmoothing c (some p)).Face =
        some ⟨blend 0.2 cf.blinkLeft pf.blinkLeft, blend 0.2 cf.blinkRight pf.blinkRight,
          blend 0.4 cf.mouthA pf.mouthA, blend 0.4 cf.mouthI pf.mouthI,
          blend 0.4 cf.mouthU pf.mouthU, blend 0.4 cf.mouthE pf.mouthE,
          blend 0.4 cf.mouthO pf.mouthO⟩) ∧
    (driverStep (driverStep prev0 r1).2 r2).1 =
      applyTemporalSmoothing r2 (some (applyTemporalSmoothing r1 prev0)) := by
  refine ⟨rfl, ?_, ?_, ?_, ?_, ?_, ?_, ?_, ?_, ?_, ?_, ?_, ?_, ?_, ?_, ?_, rfl⟩ <;>
    intro cr pr hc hp <;>
    simp [applyTemporalSmoothing, smoothEntry, hc, hp]

/-- A current-frame pose with all entries `{1, 2, 3}` and all face weights
1. -/
def poseC : SmoothPose :=
  { RightUpperArm := some ⟨1, 2, 3⟩, RightLowerArm := some ⟨1, 2, 3⟩
    LeftUpperArm := some ⟨1, 2, 3⟩, LeftLowerArm := some ⟨1, 2, 3⟩
    RightUpperLeg := some ⟨1, 2, 3⟩, RightLowerLeg := some ⟨1, 2, 3⟩
    LeftUpperLeg := some ⟨1, 2, 3⟩, LeftLowerLeg := some ⟨1, 2, 3⟩
    Hips := some ⟨1, 2, 3⟩, Spine := some ⟨1, 2, 3⟩
    RightShoulder := some ⟨1, 2, 3⟩, LeftShoulder := some ⟨1, 2, 3⟩
    Neck := some ⟨1, 2, 3⟩, Head := some ⟨1, 2, 3⟩
    Chest := some ⟨1, 2, 3⟩, UpperChest := some ⟨1, 2, 3⟩
    Face := some ⟨1, 1, 1, 1, 1, 1, 1⟩ }

/-- A previous-frame pose with all entries `{4, 5, 6}` and all face weights
0. -/
def poseP : SmoothPose :=
  { RightUpperArm := some ⟨4, 5, 6⟩, RightLowerArm := some ⟨4, 5, 6⟩
    LeftUpperArm := some ⟨4, 5, 6⟩, LeftLowerArm := some ⟨4, 5, 6⟩
    RightUpperLeg := some ⟨4, 5, 6⟩, RightLowerLeg := some ⟨4, 5, 6⟩
    LeftUpperLeg := some ⟨4, 5, 6⟩, LeftLowerLeg := some ⟨4, 5, 6⟩
    Hips := some ⟨4, 5, 6⟩, Spine := some ⟨4, 5, 6⟩
    RightShoulder := some ⟨4, 5, 6⟩, LeftShoulder := some ⟨4, 5, 6⟩
    Neck := some ⟨4, 5, 6⟩, Head := some ⟨4, 5, 6⟩
    Chest := some ⟨4, 5, 6⟩, UpperChest := some ⟨4, 5, 6⟩
    Face := some ⟨0, 0, 0, 0, 0, 0, 0⟩ }

/-- Witness for C8: concrete blends — twist axis moves fast (factor 0.1),
neck slow (0.6), blink 0.2, mouth 0.4, default 0.3. -/
theorem temporal_smoothing_blend_witness :
    applyTemporalSmoothing poseC none = poseC ∧
    (applyTemporalSmoothing poseC (some poseP)).RightUpperArm =
      some ⟨1.9, 2.3, 3.9⟩ ∧
    (applyTemporalSmoothing poseC (some poseP)).Neck = some ⟨2.8, 3.8, 4.8⟩ ∧
    (applyTemporalSmoothing poseC (some poseP)).Spine = some ⟨1.9, 2.9, 3.9⟩ ∧
    (applyTemporalSmoothing poseC (some poseP)).Face =
      some ⟨0.8, 0.8, 0.6, 0.6, 0.6, 0.6, 0.6⟩ := by
  obtain ⟨hfirst, hRUA, _, hNeck, _, _, _, _, _, _, _, _, hSpine, _, _, hFace, _⟩ :=
    temporal_smoothing_blend poseC poseP none poseC poseC
  refine ⟨hfirst, ?_, ?_, ?_, ?_⟩
  · rw [hRUA ⟨1, 2, 3⟩ ⟨4, 5, 6⟩ rfl rfl]
    norm_num [blend]
  · rw [hNeck ⟨1, 2, 3⟩ ⟨4, 5, 6⟩ rfl rfl]
    norm_num [blend]
  · rw [hSpine ⟨1, 2, 3⟩ ⟨4, 5, 6⟩ rfl rfl]
    norm_num [blend]
  · rw [hFace ⟨1, 1, 1, 1, 1, 1, 1⟩ ⟨0, 0, 0, 0, 0, 0, 0⟩ rfl rfl]
    norm_num [blend]

/-! ### Claim C9 -/

lemma armAux_pose_independent (r1 r2 : Nat → ℝ) (b1 b2 : Bool) (lm : PoseLms)
    (hand : Option HandsInput) (v : String) :
    (calculateArmRotationsAux r1 b1 lm hand v).1 =
      (calculateArmRotationsAux r2 b2 lm hand v).1 := by
  rcases h12 : lm 12 with _ | rs <;> rcases h14 : lm 14 with _ | re <;>
    rcases h16 : lm 16 with _ | rw0 <;> rcases h11 : lm 11 with _ | ls <;>
    rcases h13 : lm 13 with _ | le0 <;> rcases h15 : lm 15 with _ | lw0 <;>
    simp [calculateArmRotationsAux, h12, h14, h16, h11, h13, h15]

/-- C9: for fixed landmarks, hand input, rig-version flag and previous-pose
state, the solver outputs are identical across runs: the rigged pose returned
by the arm solver does not depend on the `Math.random()` outcomes gating its
debug logs nor on the one-time `_versionLogged` flag, and the leg, body and
smoothing solvers are pure functions of their arguments. -/
theorem solver_determinism (lm : PoseLms) (hand : Option HandsInput) (v : String)
    (r1 r2 : Nat → ℝ) (b1 b2 : Bool) (cur : SmoothPose) (prev : Option SmoothPose) :
    (calculateArmRotationsAux r1 b1 lm hand v).1 =
      (calculateArmRotationsAux r2 b2 lm hand v).1 ∧
    (calculateArmRotationsAux r1 b1 lm hand v).1 = calculateArmRotations lm hand v ∧
    calculateLegRotations lm = calculateLegRotations lm ∧
    calculateBodyRotations lm = calculateBodyRotations lm ∧
    applyTemporalSmoothing cur prev = applyTemporalSmoothing cur prev :=
  ⟨armAux_pose_independent r1 r2 b1 b2 lm hand v,
   armAux_pose_independent r1 (fun _ => 1) b1 true lm hand v, rfl, rfl, rfl⟩

end DepthMocap
